import Mathlib

/-!
Verification of the colord client library (src/libcolord/cd-client.c) against
its natural-language specification.

The embedding models the synchronous RPC-to-object marshaling layer of
`CdClient`.  External collaborators (the D-Bus transport, and the property
fetch performed by `cd_device_set_object_path_sync` / `cd_profile_set_object_path_sync`,
whose implementations are not part of the client file) are passed in as
explicit oracles: the outcome of the one remote method call an operation makes
is an `Except String reply` argument, and the outcome of binding an object
path is a `String → Except String Unit` oracle.

GObject allocation is modelled by a small heap of handle identities so that
the all-or-nothing release behaviour of the bulk-list marshalers is
observable: `g_object_new` allocates a fresh identity into the live set and
`g_object_unref` (via the `GPtrArray` free function) removes it.

The C calling convention `T *f(..., GError **error)` is modelled by
`OpResult`: `value` is the returned pointer (`none` = NULL, and for gboolean
returns `Option Unit` with `some ()` = TRUE) and `err` is the contents of the
error out-parameter after the call.  Note that the `g_return_val_if_fail`
precondition checks in the source return NULL/FALSE without touching `error`,
which the embedding reproduces as `value = none, err = none`.
-/

namespace Colord

/-- Error value written through a `GError **` out-parameter: an error domain
(quark string), an integer code within that domain, and a message. -/
structure CdError where
  domain : String
  code : Nat
  message : String
  deriving DecidableEq, Repr

/-- The client's error quark string, from `cd_client_error_quark` in
cd-client.c ("cd_client_error"). -/
def cd_client_error_quark : String := "cd_client_error"

/-- The only client error code used by cd-client.c, `CD_CLIENT_ERROR_FAILED`. -/
def CD_CLIENT_ERROR_FAILED : Nat := 0

/-- Modelled from the spec: the device proxy's own error domain.  cd-device.c
is not under src/; per spec section 4.3 a failed bind reports a BindFailed
error of the handle's own kind, mirroring `cd_profile_error_quark` declared in
cd-profile.h. -/
def cd_device_error_quark : String := "cd_device_error"

/-- The profile proxy's error quark, declared in cd-profile.h
(`CD_PROFILE_ERROR` / `cd_profile_error_quark`). -/
def cd_profile_error_quark : String := "cd_profile_error"

/-- Build a `CD_CLIENT_ERROR/CD_CLIENT_ERROR_FAILED` error, as every
`g_set_error (error, CD_CLIENT_ERROR, CD_CLIENT_ERROR_FAILED, ...)` call in
cd-client.c does. -/
def cdClientFailed (msg : String) : CdError :=
  ⟨cd_client_error_quark, CD_CLIENT_ERROR_FAILED, msg⟩

/-- Heap of GObject handle identities: `next` is the next fresh identity and
`live` the identities whose reference count is positive. -/
structure Heap where
  next : Nat
  live : List Nat
  deriving DecidableEq, Repr

/-- Allocation (`g_object_new`): the new handle gets identity `h.next`. -/
def Heap.alloc (h : Heap) : Heap := ⟨h.next + 1, h.next :: h.live⟩

/-- Final release (`g_object_unref` dropping the last reference): the handle
leaves the live set. -/
def Heap.free (h : Heap) (i : Nat) : Heap := ⟨h.next, h.live.erase i⟩

/-- A `CdDevice` handle: its heap identity and, once bound, its remote object
path.  A handle is in the bound state exactly when `object_path` is set
(spec section 3: a handle is usable only after its binding call succeeds). -/
structure CdDevice where
  hid : Nat
  object_path : Option String
  deriving DecidableEq, Repr

/-- A `CdProfile` handle, same shape as `CdDevice`. -/
structure CdProfile where
  hid : Nat
  object_path : Option String
  deriving DecidableEq, Repr

/-- Outcome oracle for the remote property fetch that binding an object path
performs: for each path, either success or a failure message. -/
def BindOracle : Type := String → Except String Unit

/-- Fresh unbound device handle (`cd_device_new`), with the heap identity it
was allocated at. -/
def cd_device_new (hid : Nat) : CdDevice := ⟨hid, none⟩

/-- Fresh unbound profile handle (`cd_profile_new`). -/
def cd_profile_new (hid : Nat) : CdProfile := ⟨hid, none⟩

/-- Modelled from the spec: `cd_device_set_object_path_sync` (cd-device.c is
not under src/).  Per spec section 4.3, bind fetches the remote object's
property set at `path`, populates the handle and marks it bound; it fails
with a BindFailed error of the device's own error domain when the fetch
errors.  The fetch outcome is the `fetch` oracle. -/
def cd_device_set_object_path_sync (fetch : BindOracle) (device : CdDevice)
    (path : String) : Except CdError CdDevice :=
  match fetch path with
  | .ok _ => .ok { device with object_path := some path }
  | .error m => .error ⟨cd_device_error_quark, 0, m⟩

/-- Modelled from the spec: `cd_profile_set_object_path_sync` (declared in
cd-profile.h; its implementation is not under src/).  Same shape as the
device bind, failing in the profile's own error domain with code
`CD_PROFILE_ERROR_FAILED` (= 0 in cd-profile.h). -/
def cd_profile_set_object_path_sync (fetch : BindOracle) (profile : CdProfile)
    (path : String) : Except CdError CdProfile :=
  match fetch path with
  | .ok _ => .ok { profile with object_path := some path }
  | .error m => .error ⟨cd_profile_error_quark, 0, m⟩

/-- Marshaler `cd_client_get_device_array_from_variant`: walk the object
paths of the reply in order; for each, allocate a device and bind it; on the
first bind failure wrap the bind error as a client "Failed to set device
object path" failure, release the failing handle and every handle already in
the temporary array (its free function is `g_object_unref`), and return no
array; on full success return the array in reply order. -/
def cd_client_get_device_array_from_variant (fetch : BindOracle) :
    List String → Heap → Except CdError (List CdDevice) × Heap
  | [], h => (.ok [], h)
  | p :: rest, h =>
    let hid := h.next
    let h1 := h.alloc
    match cd_device_set_object_path_sync fetch (cd_device_new hid) p with
    | .error e =>
        (.error (cdClientFailed ("Failed to set device object path: " ++ e.message)),
         h1.free hid)
    | .ok dev =>
        match cd_client_get_device_array_from_variant fetch rest h1 with
        | (.error e, h2) => (.error e, h2.free hid)
        | (.ok tl, h2) => (.ok (dev :: tl), h2)

/-- Marshaler `cd_client_get_profile_array_from_variant`, the profile twin of
the device marshaler, wrapping bind failures as "Failed to set profile object
path". -/
def cd_client_get_profile_array_from_variant (fetch : BindOracle) :
    List String → Heap → Except CdError (List CdProfile) × Heap
  | [], h => (.ok [], h)
  | p :: rest, h =>
    let hid := h.next
    let h1 := h.alloc
    match cd_profile_set_object_path_sync fetch (cd_profile_new hid) p with
    | .error e =>
        (.error (cdClientFailed ("Failed to set profile object path: " ++ e.message)),
         h1.free hid)
    | .ok prof =>
        match cd_client_get_profile_array_from_variant fetch rest h1 with
        | (.error e, h2) => (.error e, h2.free hid)
        | (.ok tl, h2) => (.ok (prof :: tl), h2)

/-- A `GDBusProxy`: an identity for the established transport plus the table
of string-valued properties the transport cached at connection time. -/
structure GDBusProxy where
  id : Nat
  cached : List (String × String)
  deriving DecidableEq, Repr

/-- Cached property read, `g_dbus_proxy_get_cached_property` restricted to the
string-valued properties the client uses. -/
def GDBusProxy.getCachedProperty (p : GDBusProxy) (name : String) : Option String :=
  (p.cached.find? (fun kv => kv.fst == name)).map Prod.snd

/-- The private client state `CdClientPrivate` from cd-client.c: the proxy
(NULL until `cd_client_connect_sync` succeeds) and the cached daemon version
string (NULL until set during connect). -/
structure CdClient where
  proxy : Option GDBusProxy
  daemon_version : Option String
  deriving DecidableEq, Repr

/-- The state `cd_client_init` leaves a fresh instance in: GObject private
data is zero-initialised, so both fields are NULL. -/
def cd_client_init : CdClient := ⟨none, none⟩

/-- Arguments of a remote method call, as built by `g_variant_new` at the
call sites in cd-client.c: no tuple, `(s)`, or `(su)`. -/
inductive CallArgs where
  | noArgs
  | s (v : String)
  | su (v : String) (u : Nat)
  deriving DecidableEq, Repr

/-- One remote method invocation issued through `g_dbus_proxy_call_sync`:
the method name and its arguments. -/
structure RemoteCall where
  method : String
  args : CallArgs
  deriving DecidableEq, Repr

/-- Result of a C call in the `T *f(..., GError **error)` convention:
the returned value (`none` = NULL pointer / FALSE) and the contents of the
error out-parameter afterwards.  The `g_return_val_if_fail` paths in the
source produce `⟨none, none⟩`: failure with the error left unset. -/
structure OpResult (α : Type) where
  value : Option α
  err : Option CdError
  deriving DecidableEq, Repr

/-- Full observable outcome of one client operation: its C-level result, the
remote calls it issued, the heap after it ran, and the client state after it
ran. -/
structure OpOut (α : Type) where
  res : OpResult α
  calls : List RemoteCall
  heap : Heap
  client : CdClient
  deriving DecidableEq, Repr

/-- Operation `cd_client_get_devices_sync`: precondition check on the proxy
(returns NULL with no error when unconnected), one `GetDevices` call, then
delegation to the device marshaler.  `remote` is the outcome of the call:
the reply's array of object paths, or the remote error message. -/
def cd_client_get_devices_sync (client : CdClient)
    (remote : Except String (List String)) (fetch : BindOracle) (h : Heap) :
    OpOut (List CdDevice) :=
  match client.proxy with
  | none => ⟨⟨none, none⟩, [], h, client⟩
  | some _ =>
    match remote with
    | .error m =>
        ⟨⟨none, some (cdClientFailed ("Failed to GetDevices: " ++ m))⟩,
         [⟨"GetDevices", .noArgs⟩], h, client⟩
    | .ok paths =>
        match cd_client_get_device_array_from_variant fetch paths h with
        | (.error e, h2) => ⟨⟨none, some e⟩, [⟨"GetDevices", .noArgs⟩], h2, client⟩
        | (.ok arr, h2) => ⟨⟨some arr, none⟩, [⟨"GetDevices", .noArgs⟩], h2, client⟩

/-- Modelled from the spec: the device-kind enumeration and
`cd_device_kind_to_string` live in cd-enum, which is not under src/; the
remote call carries the kind as a string (spec section 6, "kind-as-string"). -/
inductive CdDeviceKind where
  | display
  | scanner
  | printer
  | camera
  | unknown
  deriving DecidableEq, Repr

/-- Modelled from the spec: string form of a device kind sent on the wire. -/
def cd_device_kind_to_string : CdDeviceKind → String
  | .display => "display"
  | .scanner => "scanner"
  | .printer => "printer"
  | .camera => "camera"
  | .unknown => "unknown"

/-- Operation `cd_client_get_devices_by_kind_sync`: like `GetDevices` but the
call is `GetDevicesByKind` carrying the kind as a string. -/
def cd_client_get_devices_by_kind_sync (client : CdClient) (kind : CdDeviceKind)
    (remote : Except String (List String)) (fetch : BindOracle) (h : Heap) :
    OpOut (List CdDevice) :=
  match client.proxy with
  | none => ⟨⟨none, none⟩, [], h, client⟩
  | some _ =>
    match remote with
    | .error m =>
        ⟨⟨none, some (cdClientFailed ("Failed to GetDevicesByKind: " ++ m))⟩,
         [⟨"GetDevicesByKind", .s (cd_device_kind_to_string kind)⟩], h, client⟩
    | .ok paths =>
        match cd_client_get_device_array_from_variant fetch paths h with
        | (.error e, h2) =>
            ⟨⟨none, some e⟩, [⟨"GetDevicesByKind", .s (cd_device_kind_to_string kind)⟩], h2, client⟩
        | (.ok arr, h2) =>
            ⟨⟨some arr, none⟩, [⟨"GetDevicesByKind", .s (cd_device_kind_to_string kind)⟩], h2, client⟩

/-- Operation `cd_client_get_profiles_sync`: one `GetProfiles` call, then the
profile marshaler. -/
def cd_client_get_profiles_sync (client : CdClient)
    (remote : Except String (List String)) (fetch : BindOracle) (h : Heap) :
    OpOut (List CdProfile) :=
  match client.proxy with
  | none => ⟨⟨none, none⟩, [], h, client⟩
  | some _ =>
    match remote with
    | .error m =>
        ⟨⟨none, some (cdClientFailed ("Failed to GetProfiles: " ++ m))⟩,
         [⟨"GetProfiles", .noArgs⟩], h, client⟩
    | .ok paths =>
        match cd_client_get_profile_array_from_variant fetch paths h with
        | (.error e, h2) => ⟨⟨none, some e⟩, [⟨"GetProfiles", .noArgs⟩], h2, client⟩
        | (.ok arr, h2) => ⟨⟨some arr, none⟩, [⟨"GetProfiles", .noArgs⟩], h2, client⟩

/-- Operation `cd_client_create_device_sync`: one `CreateDevice` call carrying
`(id, options)`; on a remote error the message is wrapped as a client
failure; on success the single object path of the reply is bound into a fresh
device.  Note the source passes the caller's `error` directly to
`cd_device_set_object_path_sync`, so a bind failure propagates the bind error
unwrapped, and the temporary device is released. -/
def cd_client_create_device_sync (client : CdClient) (id : String) (options : Nat)
    (remote : Except String String) (fetch : BindOracle) (h : Heap) :
    OpOut CdDevice :=
  match client.proxy with
  | none => ⟨⟨none, none⟩, [], h, client⟩
  | some _ =>
    match remote with
    | .error m =>
        ⟨⟨none, some (cdClientFailed ("Failed to CreateDevice: " ++ m))⟩,
         [⟨"CreateDevice", .su id options⟩], h, client⟩
    | .ok path =>
        match cd_device_set_object_path_sync fetch (cd_device_new h.next) path with
        | .error e =>
            ⟨⟨none, some e⟩, [⟨"CreateDevice", .su id options⟩], h.alloc.free h.next, client⟩
        | .ok dev =>
            ⟨⟨some dev, none⟩, [⟨"CreateDevice", .su id options⟩], h.alloc, client⟩

/-- Operation `cd_client_create_profile_sync`, the profile twin of
`cd_client_create_device_sync`. -/
def cd_client_create_profile_sync (client : CdClient) (id : String) (options : Nat)
    (remote : Except String String) (fetch : BindOracle) (h : Heap) :
    OpOut CdProfile :=
  match client.proxy with
  | none => ⟨⟨none, none⟩, [], h, client⟩
  | some _ =>
    match remote with
    | .error m =>
        ⟨⟨none, some (cdClientFailed ("Failed to CreateProfile: " ++ m))⟩,
         [⟨"CreateProfile", .su id options⟩], h, client⟩
    | .ok path =>
        match cd_profile_set_object_path_sync fetch (cd_profile_new h.next) path with
        | .error e =>
            ⟨⟨none, some e⟩, [⟨"CreateProfile", .su id options⟩], h.alloc.free h.next, client⟩
        | .ok prof =>
            ⟨⟨some prof, none⟩, [⟨"CreateProfile", .su id options⟩], h.alloc, client⟩

/-- Operation `cd_client_delete_device_sync`: one `DeleteDevice` call carrying
the id; TRUE exactly when a reply is received, otherwise FALSE with the
remote message wrapped as a client failure. -/
def cd_client_delete_device_sync (client : CdClient) (id : String)
    (remote : Except String Unit) (h : Heap) : OpOut Unit :=
  match client.proxy with
  | none => ⟨⟨none, none⟩, [], h, client⟩
  | some _ =>
    match remote with
    | .error m =>
        ⟨⟨none, some (cdClientFailed ("Failed to DeleteDevice: " ++ m))⟩,
         [⟨"DeleteDevice", .s id⟩], h, client⟩
    | .ok _ => ⟨⟨some (), none⟩, [⟨"DeleteDevice", .s id⟩], h, client⟩

/-- Operation `cd_client_delete_profile_sync`, the profile twin of
`cd_client_delete_device_sync`. -/
def cd_client_delete_profile_sync (client : CdClient) (id : String)
    (remote : Except String Unit) (h : Heap) : OpOut Unit :=
  match client.proxy with
  | none => ⟨⟨none, none⟩, [], h, client⟩
  | some _ =>
    match remote with
    | .error m =>
        ⟨⟨none, some (cdClientFailed ("Failed to DeleteProfile: " ++ m))⟩,
         [⟨"DeleteProfile", .s id⟩], h, client⟩
    | .ok _ => ⟨⟨some (), none⟩, [⟨"DeleteProfile", .s id⟩], h, client⟩

/-- Operation `cd_client_find_device_sync`: one `FindDeviceById` call; the
reply path is bound into a fresh device, with the same error behaviour as
`cd_client_create_device_sync`. -/
def cd_client_find_device_sync (client : CdClient) (id : String)
    (remote : Except String String) (fetch : BindOracle) (h : Heap) :
    OpOut CdDevice :=
  match client.proxy with
  | none => ⟨⟨none, none⟩, [], h, client⟩
  | some _ =>
    match remote with
    | .error m =>
        ⟨⟨none, some (cdClientFailed ("Failed to FindDeviceById: " ++ m))⟩,
         [⟨"FindDeviceById", .s id⟩], h, client⟩
    | .ok path =>
        match cd_device_set_object_path_sync fetch (cd_device_new h.next) path with
        | .error e =>
            ⟨⟨none, some e⟩, [⟨"FindDeviceById", .s id⟩], h.alloc.free h.next, client⟩
        | .ok dev =>
            ⟨⟨some dev, none⟩, [⟨"FindDeviceById", .s id⟩], h.alloc, client⟩

/-- Operation `cd_client_find_profile_sync`, the profile twin of
`cd_client_find_device_sync`. -/
def cd_client_find_profile_sync (client : CdClient) (id : String)
    (remote : Except String String) (fetch : BindOracle) (h : Heap) :
    OpOut CdProfile :=
  match client.proxy with
  | none => ⟨⟨none, none⟩, [], h, client⟩
  | some _ =>
    match remote with
    | .error m =>
        ⟨⟨none, some (cdClientFailed ("Failed to FindProfileById: " ++ m))⟩,
         [⟨"FindProfileById", .s id⟩], h, client⟩
    | .ok path =>
        match cd_profile_set_object_path_sync fetch (cd_profile_new h.next) path with
        | .error e =>
            ⟨⟨none, some e⟩, [⟨"FindProfileById", .s id⟩], h.alloc.free h.next, client⟩
        | .ok prof =>
            ⟨⟨some prof, none⟩, [⟨"FindProfileById", .s id⟩], h.alloc, client⟩

/-- Result of `cd_client_connect_sync`: the gboolean return, the error
out-parameter, and the client state afterwards. -/
structure ConnectOut where
  ret : Bool
  err : Option CdError
  client : CdClient
  deriving DecidableEq, Repr

/-- Operation `cd_client_connect_sync`: the `g_return_val_if_fail` guard
returns FALSE with no error when a proxy already exists; otherwise the bus
connection is attempted (`busResult` is its outcome).  On success the proxy
is stored and the cached string property "Title" is read into
`daemon_version` only when present. -/
def cd_client_connect_sync (client : CdClient)
    (busResult : Except String GDBusProxy) : ConnectOut :=
  match client.proxy with
  | some _ => ⟨false, none, client⟩
  | none =>
    match busResult with
    | .error m =>
        ⟨false, some (cdClientFailed ("Failed to connect to colord: " ++ m)), client⟩
    | .ok proxy =>
        ⟨true, none,
         { proxy := some proxy,
           daemon_version :=
             match proxy.getCachedProperty "Title" with
             | some s => some s
             | none => client.daemon_version }⟩

/-- Operation `cd_client_get_daemon_version`: returns the cached version
string directly; the source body contains no `g_dbus_proxy_call_sync`, which
the empty call list records. -/
def cd_client_get_daemon_version (client : CdClient) :
    Option String × List RemoteCall × CdClient :=
  (client.daemon_version, [], client)

/-- Structured local event that the client's GObject signals
(`device-added`, `device-removed`, `changed`) would deliver to observers. -/
inductive CdClientEvent where
  | changed
  | deviceAdded (path : String)
  | deviceRemoved (path : String)
  | profileAdded (path : String)
  | profileRemoved (path : String)
  deriving DecidableEq, Repr

/-- An inbound D-Bus signal frame: the signal name and, for the signals that
carry one, the single object-path argument of the payload. -/
structure SignalFrame where
  name : String
  payload : Option String
  deriving DecidableEq, Repr

/-- Signal handler `cd_client_dbus_signal_cb`, translated as written: the
first component is the list of events emitted to observers via
`g_signal_emit`, the second the warnings logged.  The source recognises the
five known names but every emission site is the stub comment `//EMIT`, so no
branch emits an event: "Changed" and unknown names only log a warning, and
the four Added/Removed branches extract the object path and then free it. -/
def cd_client_dbus_signal_cb (frame : SignalFrame) :
    List CdClientEvent × List String :=
  if frame.name = "Changed" then ([], ["changed"])
  else if frame.name = "DeviceAdded" then ([], [])
  else if frame.name = "DeviceRemoved" then ([], [])
  else if frame.name = "ProfileAdded" then ([], [])
  else if frame.name = "ProfileRemoved" then ([], [])
  else ([], ["unhandled signal " ++ frame.name])

/-- The process-wide singleton state behind `cd_client_new`: the counter
supplying fresh instance identities, and the weak global pointer
`cd_client_object` — when a client is live it holds its identity, its
reference count and its `CdClientPrivate` state; `g_object_add_weak_pointer`
resets it to NULL when the last reference is dropped. -/
structure Singleton where
  next : Nat
  current : Option (Nat × Nat × CdClient)
  deriving DecidableEq, Repr

/-- Constructor `cd_client_new`: while `cd_client_object` is non-NULL it is
re-referenced and returned; otherwise a fresh instance is created (with the
zeroed state of `cd_client_init`), stored in the weak pointer, and returned
with one reference. -/
def cd_client_new (g : Singleton) : Nat × Singleton :=
  match g.current with
  | some (i, n, c) => (i, { g with current := some (i, n + 1, c) })
  | none => (g.next, ⟨g.next + 1, some (g.next, 1, cd_client_init)⟩)

/-- Release of one reference to the singleton client (`g_object_unref`):
dropping the last reference finalizes the instance and the weak pointer
resets `cd_client_object` to NULL. -/
def cd_client_unref (g : Singleton) : Singleton :=
  match g.current with
  | some (i, n, c) =>
      if n ≤ 1 then { g with current := none }
      else { g with current := some (i, n - 1, c) }
  | none => g

/-- When every bind succeeds, the device marshaler returns an array whose
object paths are exactly the reply paths in order. -/
theorem devArray_ok (fetch : BindOracle) :
    ∀ (paths : List String) (h : Heap),
      (∀ q ∈ paths, fetch q = Except.ok ()) →
      ∃ arr h2,
        cd_client_get_device_array_from_variant fetch paths h = (Except.ok arr, h2) ∧
        arr.map CdDevice.object_path = paths.map some := by
  intro paths
  induction paths with
  | nil => exact fun h _ => ⟨[], h, rfl, rfl⟩
  | cons p rest ih =>
    intro h hall
    have hp : fetch p = Except.ok () := hall p (List.mem_cons_self p rest)
    obtain ⟨tl, h2, heq, hmap⟩ :=
      ih h.alloc (fun q hq => hall q (List.mem_cons_of_mem p hq))
    refine ⟨⟨h.next, some p⟩ :: tl, h2, ?_, ?_⟩
    · simp only [cd_client_get_device_array_from_variant,
        cd_device_set_object_path_sync, cd_device_new, hp, heq]
    · simp [hmap]

/-- When the binds of `pre` succeed and the bind of `pk` fails with message
`m`, the device marshaler on `pre ++ pk :: post` returns the wrapped
"Failed to set device object path" failure and leaves the heap's live set
unchanged: every handle it allocated has been released. -/
theorem devArray_err (fetch : BindOracle) (pk m : String)
    (hpk : fetch pk = Except.error m) :
    ∀ (pre : List String), (∀ q ∈ pre, fetch q = Except.ok ()) →
      ∀ (post : List String) (h : Heap),
      (cd_client_get_device_array_from_variant fetch (pre ++ pk :: post) h).1 =
        Except.error (cdClientFailed ("Failed to set device object path: " ++ m)) ∧
      (cd_client_get_device_array_from_variant fetch (pre ++ pk :: post) h).2.live =
        h.live := by
  intro pre
  induction pre with
  | nil =>
    intro _ post h
    constructor
    · simp [cd_client_get_device_array_from_variant,
        cd_device_set_object_path_sync, cd_device_new, hpk]
    · simp [cd_client_get_device_array_from_variant,
        cd_device_set_object_path_sync, cd_device_new, hpk, Heap.alloc, Heap.free]
  | cons p rest ih =>
    intro hall post h
    have hp : fetch p = Except.ok () := hall p (List.mem_cons_self p rest)
    have hrest := ih (fun q hq => hall q (List.mem_cons_of_mem p hq)) post h.alloc
    rcases hr : cd_client_get_device_array_from_variant fetch (rest ++ pk :: post) h.alloc
      with ⟨r1, r2⟩
    rw [hr] at hrest
    obtain ⟨h1, h2⟩ := hrest
    simp only at h1 h2
    subst h1
    constructor
    · simp only [List.cons_append, cd_client_get_device_array_from_variant,
        cd_device_set_object_path_sync, cd_device_new, hp, List.append_eq, hr]
    · simp only [List.cons_append, cd_client_get_device_array_from_variant,
        cd_device_set_object_path_sync, cd_device_new, hp, List.append_eq, hr, Heap.free]
      rw [h2]
      simp [Heap.alloc]

/-- Profile twin of `devArray_err`: a failed bind inside the profile
marshaler yields the wrapped "Failed to set profile object path" failure and
releases everything it allocated. -/
theorem profArray_err (fetch : BindOracle) (pk m : String)
    (hpk : fetch pk = Except.error m) :
    ∀ (pre : List String), (∀ q ∈ pre, fetch q = Except.ok ()) →
      ∀ (post : List String) (h : Heap),
      (cd_client_get_profile_array_from_variant fetch (pre ++ pk :: post) h).1 =
        Except.error (cdClientFailed ("Failed to set profile object path: " ++ m)) ∧
      (cd_client_get_profile_array_from_variant fetch (pre ++ pk :: post) h).2.live =
        h.live := by
  intro pre
  induction pre with
  | nil =>
    intro _ post h
    constructor
    · simp [cd_client_get_profile_array_from_variant,
        cd_profile_set_object_path_sync, cd_profile_new, hpk]
    · simp [cd_client_get_profile_array_from_variant,
        cd_profile_set_object_path_sync, cd_profile_new, hpk, Heap.alloc, Heap.free]
  | cons p rest ih =>
    intro hall post h
    have hp : fetch p = Except.ok () := hall p (List.mem_cons_self p rest)
    have hrest := ih (fun q hq => hall q (List.mem_cons_of_mem p hq)) post h.alloc
    rcases hr : cd_client_get_profile_array_from_variant fetch (rest ++ pk :: post) h.alloc
      with ⟨r1, r2⟩
    rw [hr] at hrest
    obtain ⟨h1, h2⟩ := hrest
    simp only at h1 h2
    subst h1
    constructor
    · simp only [List.cons_append, cd_client_get_profile_array_from_variant,
        cd_profile_set_object_path_sync, cd_profile_new, hp, List.append_eq, hr]
    · simp only [List.cons_append, cd_client_get_profile_array_from_variant,
        cd_profile_set_object_path_sync, cd_profile_new, hp, List.append_eq, hr, Heap.free]
      rw [h2]
      simp [Heap.alloc]

/-- Connected client used by concrete witnesses: its proxy is established and
no daemon version was cached. -/
def clientEx : CdClient := ⟨some ⟨0, []⟩, none⟩

/-- Bind oracle for witnesses where every path binds successfully. -/
def fetchOk : BindOracle := fun _ => Except.ok ()

/-- Bind oracle for witnesses where exactly the path "/bad" fails to bind,
with message "boom". -/
def fetchEx : BindOracle := fun s =>
  if s = "/bad" then Except.error "boom" else Except.ok ()

/-- C1: for each bulk list operation (`cd_client_get_devices_sync`,
`cd_client_get_devices_by_kind_sync`, `cd_client_get_profiles_sync`), if the
binds of the paths before `pk` succeed and the bind of `pk` fails, the whole
operation returns NULL with a single client failure wrapping the bind error
as a "Failed to set ... object path" message, and the heap's live set is
unchanged: every handle bound for the earlier elements has been released and
no partial list reaches the caller. -/
theorem C1_bulk_list_all_or_nothing
    (client : CdClient) (p : GDBusProxy) (kind : CdDeviceKind)
    (fetch : BindOracle) (pre post : List String) (pk m : String) (h : Heap)
    (hconn : client.proxy = some p)
    (hpre : ∀ q ∈ pre, fetch q = Except.ok ())
    (hpk : fetch pk = Except.error m) :
    ((cd_client_get_devices_sync client (.ok (pre ++ pk :: post)) fetch h).res =
        ⟨none, some (cdClientFailed ("Failed to set device object path: " ++ m))⟩ ∧
     (cd_client_get_devices_sync client (.ok (pre ++ pk :: post)) fetch h).heap.live =
        h.live) ∧
    ((cd_client_get_devices_by_kind_sync client kind
        (.ok (pre ++ pk :: post)) fetch h).res =
        ⟨none, some (cdClientFailed ("Failed to set device object path: " ++ m))⟩ ∧
     (cd_client_get_devices_by_kind_sync client kind
        (.ok (pre ++ pk :: post)) fetch h).heap.live = h.live) ∧
    ((cd_client_get_profiles_sync client (.ok (pre ++ pk :: post)) fetch h).res =
        ⟨none, some (cdClientFailed ("Failed to set profile object path: " ++ m))⟩ ∧
     (cd_client_get_profiles_sync client (.ok (pre ++ pk :: post)) fetch h).heap.live =
        h.live) := by
  obtain ⟨e1, e2⟩ := devArray_err fetch pk m hpk pre hpre post h
  obtain ⟨f1, f2⟩ := profArray_err fetch pk m hpk pre hpre post h
  rcases hd : cd_client_get_device_array_from_variant fetch (pre ++ pk :: post) h
    with ⟨d1, d2⟩
  rcases hq : cd_client_get_profile_array_from_variant fetch (pre ++ pk :: post) h
    with ⟨q1, q2⟩
  rw [hd] at e1 e2
  rw [hq] at f1 f2
  simp only at e1 e2 f1 f2
  subst e1
  subst f1
  refine ⟨⟨?_, ?_⟩, ⟨?_, ?_⟩, ⟨?_, ?_⟩⟩ <;>
    simp [cd_client_get_devices_sync, cd_client_get_devices_by_kind_sync,
      cd_client_get_profiles_sync, hconn, hd, hq, e2, f2]

/-- Witness for C1 at a concrete input: reply paths "/a", "/bad", "/c" where
"/bad" fails to bind with message "boom". -/
theorem C1_witness :
    (clientEx.proxy = some ⟨0, []⟩ ∧
     (∀ q ∈ ["/a"], fetchEx q = Except.ok ()) ∧
     fetchEx "/bad" = Except.error "boom") ∧
    (((cd_client_get_devices_sync clientEx (.ok (["/a"] ++ "/bad" :: ["/c"]))
        fetchEx ⟨0, []⟩).res =
        ⟨none, some (cdClientFailed ("Failed to set device object path: " ++ "boom"))⟩ ∧
      (cd_client_get_devices_sync clientEx (.ok (["/a"] ++ "/bad" :: ["/c"]))
        fetchEx ⟨0, []⟩).heap.live = (⟨0, []⟩ : Heap).live) ∧
     ((cd_client_get_devices_by_kind_sync clientEx .display
        (.ok (["/a"] ++ "/bad" :: ["/c"])) fetchEx ⟨0, []⟩).res =
        ⟨none, some (cdClientFailed ("Failed to set device object path: " ++ "boom"))⟩ ∧
      (cd_client_get_devices_by_kind_sync clientEx .display
        (.ok (["/a"] ++ "/bad" :: ["/c"])) fetchEx ⟨0, []⟩).heap.live =
        (⟨0, []⟩ : Heap).live) ∧
     ((cd_client_get_profiles_sync clientEx (.ok (["/a"] ++ "/bad" :: ["/c"]))
        fetchEx ⟨0, []⟩).res =
        ⟨none, some (cdClientFailed ("Failed to set profile object path: " ++ "boom"))⟩ ∧
      (cd_client_get_profiles_sync clientEx (.ok (["/a"] ++ "/bad" :: ["/c"]))
        fetchEx ⟨0, []⟩).heap.live = (⟨0, []⟩ : Heap).live)) :=
  ⟨⟨rfl, by intro q hq; simp only [List.mem_singleton] at hq; subst hq; rfl, rfl⟩,
   C1_bulk_list_all_or_nothing clientEx ⟨0, []⟩ .display fetchEx ["/a"] ["/c"]
     "/bad" "boom" ⟨0, []⟩ rfl
     (by intro q hq; simp only [List.mem_singleton] at hq; subst hq; rfl) rfl⟩

/-- C2: a successful `cd_client_get_devices_sync` call whose reply carries N
object paths returns an array of length N whose elements carry the reply
paths in reply order, each in the bound state. -/
theorem C2_list_devices_success
    (client : CdClient) (p : GDBusProxy) (fetch : BindOracle)
    (paths : List String) (h : Heap)
    (hconn : client.proxy = some p)
    (hall : ∀ q ∈ paths, fetch q = Except.ok ()) :
    ∃ arr,
      (cd_client_get_devices_sync client (.ok paths) fetch h).res.value = some arr ∧
      (cd_client_get_devices_sync client (.ok paths) fetch h).res.err = none ∧
      arr.length = paths.length ∧
      arr.map CdDevice.object_path = paths.map some ∧
      ∀ d ∈ arr, d.object_path.isSome = true := by
  obtain ⟨arr, h2, heq, hmap⟩ := devArray_ok fetch paths h hall
  refine ⟨arr, ?_, ?_, ?_, hmap, ?_⟩
  · simp [cd_client_get_devices_sync, hconn, heq]
  · simp [cd_client_get_devices_sync, hconn, heq]
  · have hlen := congrArg List.length hmap
    simpa using hlen
  · intro d hd
    have hmem : d.object_path ∈ arr.map CdDevice.object_path :=
      List.mem_map_of_mem _ hd
    rw [hmap] at hmem
    obtain ⟨q, _, hqe⟩ := List.mem_map.mp hmem
    rw [← hqe]
    rfl

/-- Witness for C2 at a concrete input: a two-path reply where every bind
succeeds. -/
theorem C2_witness :
    (clientEx.proxy = some ⟨0, []⟩ ∧
     (∀ q ∈ ["/a", "/b"], fetchOk q = Except.ok ())) ∧
    (∃ arr,
      (cd_client_get_devices_sync clientEx (.ok ["/a", "/b"]) fetchOk
        ⟨0, []⟩).res.value = some arr ∧
      (cd_client_get_devices_sync clientEx (.ok ["/a", "/b"]) fetchOk
        ⟨0, []⟩).res.err = none ∧
      arr.length = (["/a", "/b"] : List String).length ∧
      arr.map CdDevice.object_path = (["/a", "/b"] : List String).map some ∧
      ∀ d ∈ arr, d.object_path.isSome = true) :=
  ⟨⟨rfl, fun _ _ => rfl⟩,
   C2_list_devices_success clientEx ⟨0, []⟩ fetchOk ["/a", "/b"] ⟨0, []⟩ rfl
     (fun _ _ => rfl)⟩

/-- C3 counterexample: on a never-connected client,
`cd_client_get_devices_sync` fails (returns NULL) and performs no remote
call, but the error out-parameter stays unset — the `g_return_val_if_fail`
guard reports no NotConnected (or any other) error. -/
theorem C3_counterexample :
    (cd_client_get_devices_sync cd_client_init (.ok ["/a"]) fetchOk
      ⟨0, []⟩).res.value = none ∧
    (cd_client_get_devices_sync cd_client_init (.ok ["/a"]) fetchOk
      ⟨0, []⟩).res.err = none ∧
    (cd_client_get_devices_sync cd_client_init (.ok ["/a"]) fetchOk
      ⟨0, []⟩).calls = [] :=
  ⟨rfl, rfl, rfl⟩

/-- C3 (amended): invoking any operation other than connect on a client whose
proxy is not yet established returns failure (NULL / FALSE) with the error
out-parameter left unset, performs no remote call and leaves the client and
heap untouched; `cd_client_get_daemon_version` does not fail — it returns the
cached (unset) version, also without a remote call. -/
theorem C3_unconnected_fails_silently
    (client : CdClient) (kind : CdDeviceKind) (id : String) (options : Nat)
    (rl : Except String (List String)) (rs : Except String String)
    (ru : Except String Unit) (fetch : BindOracle) (h : Heap)
    (hconn : client.proxy = none) :
    cd_client_get_devices_sync client rl fetch h = ⟨⟨none, none⟩, [], h, client⟩ ∧
    cd_client_get_devices_by_kind_sync client kind rl fetch h =
      ⟨⟨none, none⟩, [], h, client⟩ ∧
    cd_client_get_profiles_sync client rl fetch h = ⟨⟨none, none⟩, [], h, client⟩ ∧
    cd_client_create_device_sync client id options rs fetch h =
      ⟨⟨none, none⟩, [], h, client⟩ ∧
    cd_client_create_profile_sync client id options rs fetch h =
      ⟨⟨none, none⟩, [], h, client⟩ ∧
    cd_client_delete_device_sync client id ru h = ⟨⟨none, none⟩, [], h, client⟩ ∧
    cd_client_delete_profile_sync client id ru h = ⟨⟨none, none⟩, [], h, client⟩ ∧
    cd_client_find_device_sync client id rs fetch h = ⟨⟨none, none⟩, [], h, client⟩ ∧
    cd_client_find_profile_sync client id rs fetch h = ⟨⟨none, none⟩, [], h, client⟩ ∧
    cd_client_get_daemon_version client = (client.daemon_version, [], client) := by
  refine ⟨?_, ?_, ?_, ?_, ?_, ?_, ?_, ?_, ?_, rfl⟩ <;>
    simp [cd_client_get_devices_sync, cd_client_get_devices_by_kind_sync,
      cd_client_get_profiles_sync, cd_client_create_device_sync,
      cd_client_create_profile_sync, cd_client_delete_device_sync,
      cd_client_delete_profile_sync, cd_client_find_device_sync,
      cd_client_find_profile_sync, hconn]

/-- Witness for C3 (amended) on the freshly-initialised client. -/
theorem C3_witness :
    (cd_client_init.proxy = none) ∧
    (cd_client_get_devices_sync cd_client_init (.ok ["/a"]) fetchOk ⟨0, []⟩ =
      ⟨⟨none, none⟩, [], ⟨0, []⟩, cd_client_init⟩ ∧
     cd_client_get_devices_by_kind_sync cd_client_init .display (.ok ["/a"])
       fetchOk ⟨0, []⟩ = ⟨⟨none, none⟩, [], ⟨0, []⟩, cd_client_init⟩ ∧
     cd_client_get_profiles_sync cd_client_init (.ok ["/a"]) fetchOk ⟨0, []⟩ =
      ⟨⟨none, none⟩, [], ⟨0, []⟩, cd_client_init⟩ ∧
     cd_client_create_device_sync cd_client_init "dev" 0 (.ok "/p") fetchOk
       ⟨0, []⟩ = ⟨⟨none, none⟩, [], ⟨0, []⟩, cd_client_init⟩ ∧
     cd_client_create_profile_sync cd_client_init "dev" 0 (.ok "/p") fetchOk
       ⟨0, []⟩ = ⟨⟨none, none⟩, [], ⟨0, []⟩, cd_client_init⟩ ∧
     cd_client_delete_device_sync cd_client_init "dev" (.ok ()) ⟨0, []⟩ =
      ⟨⟨none, none⟩, [], ⟨0, []⟩, cd_client_init⟩ ∧
     cd_client_delete_profile_sync cd_client_init "dev" (.ok ()) ⟨0, []⟩ =
      ⟨⟨none, none⟩, [], ⟨0, []⟩, cd_client_init⟩ ∧
     cd_client_find_device_sync cd_client_init "dev" (.ok "/p") fetchOk
       ⟨0, []⟩ = ⟨⟨none, none⟩, [], ⟨0, []⟩, cd_client_init⟩ ∧
     cd_client_find_profile_sync cd_client_init "dev" (.ok "/p") fetchOk
       ⟨0, []⟩ = ⟨⟨none, none⟩, [], ⟨0, []⟩, cd_client_init⟩ ∧
     cd_client_get_daemon_version cd_client_init =
      (cd_client_init.daemon_version, [], cd_client_init)) :=
  ⟨rfl, C3_unconnected_fails_silently cd_client_init .display "dev" 0
    (.ok ["/a"]) (.ok "/p") (.ok ()) fetchOk ⟨0, []⟩ rfl⟩

/-- Proxy with a cached Title property, used by concrete connect witnesses. -/
def proxyEx : GDBusProxy := ⟨7, [("Title", "0.1.0")]⟩

/-- C4 counterexample: connect once successfully, then connect again — the
second call returns FALSE but leaves the error out-parameter unset, so no
AlreadyConnected error is reported (the client itself is unchanged). -/
theorem C4_counterexample :
    (cd_client_connect_sync cd_client_init (.ok proxyEx)).ret = true ∧
    (cd_client_connect_sync
      (cd_client_connect_sync cd_client_init (.ok proxyEx)).client
      (.ok ⟨8, []⟩)).ret = false ∧
    (cd_client_connect_sync
      (cd_client_connect_sync cd_client_init (.ok proxyEx)).client
      (.ok ⟨8, []⟩)).err = none ∧
    (cd_client_connect_sync
      (cd_client_connect_sync cd_client_init (.ok proxyEx)).client
      (.ok ⟨8, []⟩)).client =
      (cd_client_connect_sync cd_client_init (.ok proxyEx)).client :=
  ⟨rfl, rfl, rfl, rfl⟩

/-- C4 (amended): a second connect on an already-connected client returns
FALSE with the error left unset, does not attempt the bus connection, and
leaves the client — in particular the original transport handle — unchanged
and usable. -/
theorem C4_second_connect_rejected
    (client : CdClient) (p : GDBusProxy) (busResult : Except String GDBusProxy)
    (hconn : client.proxy = some p) :
    cd_client_connect_sync client busResult = ⟨false, none, client⟩ ∧
    (cd_client_connect_sync client busResult).client.proxy = some p := by
  constructor <;> simp [cd_client_connect_sync, hconn]

/-- Witness for C4 (amended) after one concrete successful connect. -/
theorem C4_witness :
    ((cd_client_connect_sync cd_client_init (.ok proxyEx)).client.proxy =
      some proxyEx) ∧
    (cd_client_connect_sync
       (cd_client_connect_sync cd_client_init (.ok proxyEx)).client
       (.ok ⟨8, []⟩) =
      ⟨false, none, (cd_client_connect_sync cd_client_init (.ok proxyEx)).client⟩ ∧
     (cd_client_connect_sync
       (cd_client_connect_sync cd_client_init (.ok proxyEx)).client
       (.ok ⟨8, []⟩)).client.proxy = some proxyEx) :=
  ⟨rfl, C4_second_connect_rejected
    (cd_client_connect_sync cd_client_init (.ok proxyEx)).client proxyEx
    (.ok ⟨8, []⟩) rfl⟩

/-- C5 counterexample: `cd_client_create_device_sync` with a reply path that
fails to bind surfaces the bind's own error domain, not the client's
RequestFailed domain — the claim's "fails with RequestFailed ... if the
binding of the returned path fails" does not hold on the code, which passes
the caller's error pointer straight to the bind. -/
theorem C5_counterexample :
    (cd_client_create_device_sync clientEx "epson-9800" 0 (.ok "/bad") fetchEx
      ⟨0, []⟩).res.err = some ⟨cd_device_error_quark, 0, "boom"⟩ ∧
    cd_device_error_quark ≠ cd_client_error_quark :=
  ⟨rfl, by decide⟩

/-- C5 (amended): `cd_client_create_device_sync` issues exactly one
CreateDevice call carrying the id and options bitmask; on a remote error it
fails with the client RequestFailed error wrapping the remote message; on
success it binds the single object path of the reply and returns a bound
device carrying exactly that path; when binding the reply path fails, it
fails with the bind error propagated unchanged — an error of the device's own
domain, not a client RequestFailed. -/
theorem C5_create_device
    (client : CdClient) (p : GDBusProxy) (id : String) (options : Nat)
    (remote : Except String String) (fetch : BindOracle) (h : Heap)
    (hconn : client.proxy = some p) :
    (cd_client_create_device_sync client id options remote fetch h).calls =
      [⟨"CreateDevice", .su id options⟩] ∧
    (∀ m, remote = .error m →
      (cd_client_create_device_sync client id options remote fetch h).res =
        ⟨none, some (cdClientFailed ("Failed to CreateDevice: " ++ m))⟩) ∧
    (∀ path, remote = .ok path → fetch path = .ok () →
      (cd_client_create_device_sync client id options remote fetch h).res =
        ⟨some ⟨h.next, some path⟩, none⟩) ∧
    (∀ path m, remote = .ok path → fetch path = .error m →
      (cd_client_create_device_sync client id options remote fetch h).res =
        ⟨none, some ⟨cd_device_error_quark, 0, m⟩⟩ ∧
      cd_device_error_quark ≠ cd_client_error_quark) := by
  refine ⟨?_, ?_, ?_, ?_⟩
  · cases remote with
    | error m => simp [cd_client_create_device_sync, hconn]
    | ok path =>
      cases hf : fetch path with
      | ok u =>
        simp [cd_client_create_device_sync, cd_device_set_object_path_sync,
          cd_device_new, hconn, hf]
      | error m =>
        simp [cd_client_create_device_sync, cd_device_set_object_path_sync,
          cd_device_new, hconn, hf]
  · intro m hm
    subst hm
    simp [cd_client_create_device_sync, hconn]
  · intro path hp hf
    subst hp
    simp [cd_client_create_device_sync, cd_device_set_object_path_sync,
      cd_device_new, hconn, hf]
  · intro path m hp hf
    subst hp
    refine ⟨?_, by decide⟩
    simp [cd_client_create_device_sync, cd_device_set_object_path_sync,
      cd_device_new, hconn, hf]

/-- Witness for C5 (amended) at a concrete input whose reply path fails to
bind. -/
theorem C5_witness :
    (clientEx.proxy = some ⟨0, []⟩) ∧
    ((cd_client_create_device_sync clientEx "epson-9800" 0 (.ok "/bad") fetchEx
        ⟨0, []⟩).calls = [⟨"CreateDevice", .su "epson-9800" 0⟩] ∧
     (∀ m, (.ok "/bad" : Except String String) = .error m →
       (cd_client_create_device_sync clientEx "epson-9800" 0 (.ok "/bad") fetchEx
         ⟨0, []⟩).res =
         ⟨none, some (cdClientFailed ("Failed to CreateDevice: " ++ m))⟩) ∧
     (∀ path, (.ok "/bad" : Except String String) = .ok path →
       fetchEx path = .ok () →
       (cd_client_create_device_sync clientEx "epson-9800" 0 (.ok "/bad") fetchEx
         ⟨0, []⟩).res = ⟨some ⟨(⟨0, []⟩ : Heap).next, some path⟩, none⟩) ∧
     (∀ path m, (.ok "/bad" : Except String String) = .ok path →
       fetchEx path = .error m →
       (cd_client_create_device_sync clientEx "epson-9800" 0 (.ok "/bad") fetchEx
         ⟨0, []⟩).res = ⟨none, some ⟨cd_device_error_quark, 0, m⟩⟩ ∧
       cd_device_error_quark ≠ cd_client_error_quark)) :=
  ⟨rfl, C5_create_device clientEx ⟨0, []⟩ "epson-9800" 0 (.ok "/bad") fetchEx
    ⟨0, []⟩ rfl⟩

/-- C6: the delete operations succeed exactly when a reply is received; on an
error reply they return FALSE with a client RequestFailed error carrying the
remote message, and the client — in particular its transport — is unchanged,
so it remains connected afterwards. -/
theorem C6_delete_error_handling
    (client : CdClient) (p : GDBusProxy) (id : String)
    (remote : Except String Unit) (h : Heap)
    (hconn : client.proxy = some p) :
    ((cd_client_delete_profile_sync client id remote h).res.value = some () ↔
      remote = .ok ()) ∧
    (∀ m, remote = .error m →
      (cd_client_delete_profile_sync client id remote h).res =
        ⟨none, some (cdClientFailed ("Failed to DeleteProfile: " ++ m))⟩) ∧
    (cd_client_delete_profile_sync client id remote h).client = client ∧
    (cd_client_delete_profile_sync client id remote h).client.proxy = some p ∧
    ((cd_client_delete_device_sync client id remote h).res.value = some () ↔
      remote = .ok ()) ∧
    (∀ m, remote = .error m →
      (cd_client_delete_device_sync client id remote h).res =
        ⟨none, some (cdClientFailed ("Failed to DeleteDevice: " ++ m))⟩) ∧
    (cd_client_delete_device_sync client id remote h).client = client ∧
    (cd_client_delete_device_sync client id remote h).client.proxy = some p := by
  cases remote with
  | ok u =>
    cases u
    refine ⟨?_, ?_, ?_, ?_, ?_, ?_, ?_, ?_⟩ <;>
      simp [cd_client_delete_profile_sync, cd_client_delete_device_sync, hconn]
  | error m =>
    refine ⟨?_, ?_, ?_, ?_, ?_, ?_, ?_, ?_⟩ <;>
      simp [cd_client_delete_profile_sync, cd_client_delete_device_sync, hconn]

/-- Witness for C6 at a concrete error reply from the remote stub. -/
theorem C6_witness :
    (clientEx.proxy = some ⟨0, []⟩) ∧
    (((cd_client_delete_profile_sync clientEx "icc-001" (.error "denied")
        ⟨0, []⟩).res.value = some () ↔
       (.error "denied" : Except String Unit) = .ok ()) ∧
     (∀ m, (.error "denied" : Except String Unit) = .error m →
       (cd_client_delete_profile_sync clientEx "icc-001" (.error "denied")
         ⟨0, []⟩).res =
         ⟨none, some (cdClientFailed ("Failed to DeleteProfile: " ++ m))⟩) ∧
     (cd_client_delete_profile_sync clientEx "icc-001" (.error "denied")
       ⟨0, []⟩).client = clientEx ∧
     (cd_client_delete_profile_sync clientEx "icc-001" (.error "denied")
       ⟨0, []⟩).client.proxy = some ⟨0, []⟩ ∧
     ((cd_client_delete_device_sync clientEx "icc-001" (.error "denied")
        ⟨0, []⟩).res.value = some () ↔
       (.error "denied" : Except String Unit) = .ok ()) ∧
     (∀ m, (.error "denied" : Except String Unit) = .error m →
       (cd_client_delete_device_sync clientEx "icc-001" (.error "denied")
         ⟨0, []⟩).res =
         ⟨none, some (cdClientFailed ("Failed to DeleteDevice: " ++ m))⟩) ∧
     (cd_client_delete_device_sync clientEx "icc-001" (.error "denied")
       ⟨0, []⟩).client = clientEx ∧
     (cd_client_delete_device_sync clientEx "icc-001" (.error "denied")
       ⟨0, []⟩).client.proxy = some ⟨0, []⟩) :=
  ⟨rfl, C6_delete_error_handling clientEx ⟨0, []⟩ "icc-001" (.error "denied")
    ⟨0, []⟩ rfl⟩

/-- C7: evaluation of the signal router at the claim's inputs.  A frame
tagged "DeviceAdded" carrying the object path produces zero events to
observers — the source extracts the path but every emission site in
`cd_client_dbus_signal_cb` is the stub comment `//EMIT`, contradicting both
the claim's "exactly one DeviceAdded event" and the class documentation of
the registered `device-added` GObject signal.  A frame with an unknown name
produces zero events and only a log line, as the claim says. -/
theorem C7_signal_router_eval :
    cd_client_dbus_signal_cb
      ⟨"DeviceAdded", some "/org/example/colord/devices/dev1"⟩ = ([], []) ∧
    cd_client_dbus_signal_cb ⟨"FooBar", none⟩ =
      ([], ["unhandled signal FooBar"]) := by
  constructor <;> decide

/-- Dropping one reference to the singleton never changes the fresh-identity
counter. -/
theorem cd_client_unref_next (g : Singleton) :
    (cd_client_unref g).next = g.next := by
  rcases g with ⟨nx, cur⟩
  cases cur with
  | none => rfl
  | some t =>
    rcases t with ⟨i, n, c⟩
    by_cases hn : n ≤ 1 <;> simp [cd_client_unref, hn]

/-- Releasing all `n + 1` outstanding references finalizes the singleton:
the weak global pointer is reset to NULL, and the identity counter is
untouched. -/
theorem cd_client_unref_iterate (n : Nat) :
    ∀ (g : Singleton) (i : Nat) (c : CdClient),
      g.current = some (i, n + 1, c) →
      (cd_client_unref^[n + 1] g).current = none ∧
      (cd_client_unref^[n + 1] g).next = g.next := by
  induction n with
  | zero =>
    intro g i c hc
    constructor <;> simp [cd_client_unref, hc]
  | succ k ih =>
    intro g i c hc
    have h2 : ¬ (k + 1 + 1 ≤ 1) := by omega
    have hstep : cd_client_unref g = { g with current := some (i, k + 1, c) } := by
      simp [cd_client_unref, hc, h2]
    rw [Function.iterate_succ_apply, hstep]
    exact ih _ i c rfl

/-- C8: while at least one reference to the singleton client is outstanding,
`cd_client_new` returns the same logical instance (same identity, state
intact, one more reference); after all `n + 1` references are released the
weak pointer is NULL and the next `cd_client_new` produces a fresh instance —
a new identity distinct from the old one — in the unconnected initial
state. -/
theorem C8_singleton_semantics
    (g : Singleton) (i n : Nat) (c : CdClient)
    (hcur : g.current = some (i, n + 1, c)) (hfresh : i < g.next) :
    ((cd_client_new g).1 = i ∧
     (cd_client_new g).2.current = some (i, n + 2, c)) ∧
    ((cd_client_unref^[n + 1] g).current = none ∧
     (cd_client_new (cd_client_unref^[n + 1] g)).1 = g.next ∧
     g.next ≠ i ∧
     (cd_client_new (cd_client_unref^[n + 1] g)).2.current =
       some (g.next, 1, cd_client_init) ∧
     cd_client_init.proxy = none) := by
  obtain ⟨hnone, hnext⟩ := cd_client_unref_iterate n g i c hcur
  have hnone2 := hnone
  have hnext2 := hnext
  rw [Function.iterate_succ_apply] at hnone2 hnext2
  refine ⟨⟨?_, ?_⟩, hnone, ?_, ?_, ?_, rfl⟩
  · simp [cd_client_new, hcur]
  · simp [cd_client_new, hcur]
  · simp [cd_client_new, hnone2, hnext2]
  · omega
  · simp [cd_client_new, hnone2, hnext2]

/-- Witness for C8: a live singleton with identity 0 and two outstanding
references. -/
theorem C8_witness :
    ((⟨1, some (0, 2, cd_client_init)⟩ : Singleton).current =
      some (0, 1 + 1, cd_client_init) ∧
     0 < (⟨1, some (0, 2, cd_client_init)⟩ : Singleton).next) ∧
    (((cd_client_new ⟨1, some (0, 2, cd_client_init)⟩).1 = 0 ∧
      (cd_client_new ⟨1, some (0, 2, cd_client_init)⟩).2.current =
        some (0, 1 + 2, cd_client_init)) ∧
     ((cd_client_unref^[1 + 1] (⟨1, some (0, 2, cd_client_init)⟩ : Singleton)).current =
        none ∧
      (cd_client_new (cd_client_unref^[1 + 1]
        (⟨1, some (0, 2, cd_client_init)⟩ : Singleton))).1 =
        (⟨1, some (0, 2, cd_client_init)⟩ : Singleton).next ∧
      (⟨1, some (0, 2, cd_client_init)⟩ : Singleton).next ≠ 0 ∧
      (cd_client_new (cd_client_unref^[1 + 1]
        (⟨1, some (0, 2, cd_client_init)⟩ : Singleton))).2.current =
        some ((⟨1, some (0, 2, cd_client_init)⟩ : Singleton).next, 1, cd_client_init) ∧
      cd_client_init.proxy = none)) :=
  ⟨⟨rfl, by decide⟩,
   C8_singleton_semantics ⟨1, some (0, 2, cd_client_init)⟩ 0 1 cd_client_init
     rfl (by decide)⟩

/-- C9: when connect establishes the transport but the proxy's cached
property table carries no "Title" (version) entry, connect still succeeds
with no error and the cached version stays unset; `cd_client_get_daemon_version`
then returns that unset value and issues no remote call. -/
theorem C9_connect_without_version
    (client : CdClient) (proxy : GDBusProxy)
    (hconn : client.proxy = none) (hver : client.daemon_version = none)
    (habs : proxy.getCachedProperty "Title" = none) :
    (cd_client_connect_sync client (.ok proxy)).ret = true ∧
    (cd_client_connect_sync client (.ok proxy)).err = none ∧
    (cd_client_connect_sync client (.ok proxy)).client = ⟨some proxy, none⟩ ∧
    cd_client_get_daemon_version
      (cd_client_connect_sync client (.ok proxy)).client =
      (none, [], ⟨some proxy, none⟩) := by
  refine ⟨?_, ?_, ?_, ?_⟩ <;>
    simp [cd_client_connect_sync, cd_client_get_daemon_version, hconn, hver, habs]

/-- Witness for C9: a proxy whose cached property table has no "Title"
entry. -/
theorem C9_witness :
    (cd_client_init.proxy = none ∧
     cd_client_init.daemon_version = none ∧
     (⟨3, [("Vendor", "acme")]⟩ : GDBusProxy).getCachedProperty "Title" = none) ∧
    ((cd_client_connect_sync cd_client_init
        (.ok ⟨3, [("Vendor", "acme")]⟩)).ret = true ∧
     (cd_client_connect_sync cd_client_init
        (.ok ⟨3, [("Vendor", "acme")]⟩)).err = none ∧
     (cd_client_connect_sync cd_client_init
        (.ok ⟨3, [("Vendor", "acme")]⟩)).client =
        ⟨some ⟨3, [("Vendor", "acme")]⟩, none⟩ ∧
     cd_client_get_daemon_version
        (cd_client_connect_sync cd_client_init
          (.ok ⟨3, [("Vendor", "acme")]⟩)).client =
        (none, [], ⟨some ⟨3, [("Vendor", "acme")]⟩, none⟩)) :=
  ⟨⟨rfl, rfl, rfl⟩,
   C9_connect_without_version cd_client_init ⟨3, [("Vendor", "acme")]⟩
     rfl rfl rfl⟩

/-- C10: every operation other than connect leaves the client's own state —
the transport handle and the cached version string — unchanged, whether the
operation succeeds or fails. -/
theorem C10_frame_client_state
    (client : CdClient) (kind : CdDeviceKind) (id : String) (options : Nat)
    (rl : Except String (List String)) (rs : Except String String)
    (ru : Except String Unit) (fetch : BindOracle) (h : Heap) :
    (cd_client_get_devices_sync client rl fetch h).client = client ∧
    (cd_client_get_devices_by_kind_sync client kind rl fetch h).client = client ∧
    (cd_client_get_profiles_sync client rl fetch h).client = client ∧
    (cd_client_create_device_sync client id options rs fetch h).client = client ∧
    (cd_client_create_profile_sync client id options rs fetch h).client = client ∧
    (cd_client_delete_device_sync client id ru h).client = client ∧
    (cd_client_delete_profile_sync client id ru h).client = client ∧
    (cd_client_find_device_sync client id rs fetch h).client = client ∧
    (cd_client_find_profile_sync client id rs fetch h).client = client ∧
    (cd_client_get_daemon_version client).2.2 = client := by
  refine ⟨?_, ?_, ?_, ?_, ?_, ?_, ?_, ?_, ?_, rfl⟩
  · unfold cd_client_get_devices_sync
    repeat' split
    all_goals rfl
  · unfold cd_client_get_devices_by_kind_sync
    repeat' split
    all_goals rfl
  · unfold cd_client_get_profiles_sync
    repeat' split
    all_goals rfl
  · unfold cd_client_create_device_sync
    repeat' split
    all_goals rfl
  · unfold cd_client_create_profile_sync
    repeat' split
    all_goals rfl
  · unfold cd_client_delete_device_sync
    repeat' split
    all_goals rfl
  · unfold cd_client_delete_profile_sync
    repeat' split
    all_goals rfl
  · unfold cd_client_find_device_sync
    repeat' split
    all_goals rfl
  · unfold cd_client_find_profile_sync
    repeat' split
    all_goals rfl

end Colord
